import Mathlib

/-!
Verification of the Priority & Estimation Engine of the
dynamic-task-prioritization-scheduling repository.

Shallow embedding conventions:
* Python ints are `ℤ`, Python floats are idealized as exact rationals `ℚ`
  (reals `ℝ` where a square root is taken, as in `np.linalg.norm`).
* `int(x)` is truncation toward zero (`pyInt`), `round(x)` is Python's
  round-half-to-even (`pyRound`).
* The MongoDB task collection is a `List TaskRecord`; `find` with an equality
  filter is `List.filter`, and `update_one` updates the first matching record.
* External collaborators (the SBERT embedder and the similarity metric value
  it induces, and the XGBoost classifier) are injected as function arguments;
  a classifier call that can raise is a function into `Except`.
-/

/-- Python `int(q)`: truncation toward zero. -/
def pyInt (q : ℚ) : ℤ := if 0 ≤ q then ⌊q⌋ else ⌈q⌉

/-- Python `round(q)` on an exact value: round half to even. -/
def pyRound (q : ℚ) : ℤ :=
  if q - ⌊q⌋ < 1/2 then ⌊q⌋
  else if q - ⌊q⌋ > 1/2 then ⌊q⌋ + 1
  else if 2 ∣ ⌊q⌋ then ⌊q⌋ else ⌊q⌋ + 1

/-! ## `src/src/mcdm_calculator.py` -/

/-- Embedding of `calculate_urgency_score(days_left)` from `src/src/mcdm_calculator.py`. -/
def calculate_urgency_score (days_left : ℤ) : ℤ :=
  if days_left ≤ 1 then 100
  else if days_left ≤ 3 then 80
  else if days_left ≤ 7 then 60
  else if days_left ≤ 14 then 40
  else 20

/-- Source expression `raw_impact = credits * (weight_percentage / 100)`. -/
def raw_impact (credits weight_percentage : ℤ) : ℚ :=
  (credits : ℚ) * ((weight_percentage : ℚ) / 100)

/-- Embedding of `calculate_impact_score(credits, weight_percentage)` from
`src/src/mcdm_calculator.py`. -/
def calculate_impact_score (credits weight_percentage : ℤ) : ℤ :=
  let raw := raw_impact credits weight_percentage
  if raw ≥ 2 then 100
  else if raw ≥ 3/2 then 90
  else if raw ≥ 1 then 75
  else if raw ≥ 1/2 then 50
  else if raw < 1/5 then 10
  else pyInt (raw * 50)

/-- Embedding of `calculate_difficulty_score(difficulty_rating)` from
`src/src/mcdm_calculator.py`. -/
def calculate_difficulty_score (difficulty_rating : ℤ) : ℤ :=
  difficulty_rating * 20

/-- Embedding of `calculate_final_score(urgency, impact, difficulty)` from
`src/src/mcdm_calculator.py`. -/
def calculate_final_score (urgency impact difficulty : ℤ) : ℚ :=
  (urgency : ℚ) * (1/2) + (impact : ℚ) * (3/10) + (difficulty : ℚ) * (1/5)

/-- Embedding of `get_priority_label(final_score)` from `src/src/mcdm_calculator.py`. -/
def get_priority_label (final_score : ℚ) : String :=
  if final_score ≥ 70 then "High"
  else if final_score ≥ 40 then "Medium"
  else "Low"

/-! ### Claim C8: urgency step function -/

/-- C8: the urgency score is 100 for `days_left ≤ 1` (including every
negative, overdue value), 80 for `1 < days_left ≤ 3`, 60 for
`3 < days_left ≤ 7`, 40 for `7 < days_left ≤ 14`, 20 for `days_left > 14`,
and is monotonically non-increasing in `days_left`. -/
theorem C8_urgency_steps :
    (∀ d : ℤ, d ≤ 1 → calculate_urgency_score d = 100) ∧
    (∀ d : ℤ, 1 < d → d ≤ 3 → calculate_urgency_score d = 80) ∧
    (∀ d : ℤ, 3 < d → d ≤ 7 → calculate_urgency_score d = 60) ∧
    (∀ d : ℤ, 7 < d → d ≤ 14 → calculate_urgency_score d = 40) ∧
    (∀ d : ℤ, 14 < d → calculate_urgency_score d = 20) ∧
    (∀ a b : ℤ, a ≤ b → calculate_urgency_score b ≤ calculate_urgency_score a) := by
  refine ⟨?_, ?_, ?_, ?_, ?_, ?_⟩ <;>
    intro a b <;> unfold calculate_urgency_score <;> split_ifs <;> omega

/-- Witness for C8 at concrete inputs, including an overdue (negative) day
count. -/
theorem C8_urgency_steps_witness :
    calculate_urgency_score (-5) = 100 ∧ calculate_urgency_score 2 = 80 ∧
    calculate_urgency_score 7 = 60 ∧ calculate_urgency_score 14 = 40 ∧
    calculate_urgency_score 15 = 20 ∧
    calculate_urgency_score 9 ≤ calculate_urgency_score 2 :=
  ⟨C8_urgency_steps.1 (-5) (by decide),
   C8_urgency_steps.2.1 2 (by decide) (by decide),
   C8_urgency_steps.2.2.1 7 (by decide) (by decide),
   C8_urgency_steps.2.2.2.1 14 (by decide) (by decide),
   C8_urgency_steps.2.2.2.2.1 15 (by decide),
   C8_urgency_steps.2.2.2.2.2 2 9 (by decide)⟩

/-! ### Claim C9: priority label boundaries -/

/-- C9: the priority label is "High" exactly when the final score is ≥ 70,
"Medium" exactly when it is in [40, 70), and "Low" otherwise; both
boundaries are inclusive, as the concrete values 70.0, 69.9, 40.0, 39.9
show. -/
theorem C9_priority_label :
    (∀ s : ℚ, (get_priority_label s = "High" ↔ 70 ≤ s) ∧
      (get_priority_label s = "Medium" ↔ 40 ≤ s ∧ s < 70) ∧
      (get_priority_label s = "Low" ↔ s < 40)) ∧
    get_priority_label 70 = "High" ∧
    get_priority_label (699/10) = "Medium" ∧
    get_priority_label 40 = "Medium" ∧
    get_priority_label (399/10) = "Low" := by
  constructor
  · intro s
    unfold get_priority_label
    split_ifs with h1 h2
    · exact ⟨⟨fun _ => h1, fun _ => rfl⟩,
        ⟨fun h => absurd h (by decide), fun h => by linarith [h.2]⟩,
        ⟨fun h => absurd h (by decide), fun h => by linarith⟩⟩
    · push_neg at h1
      exact ⟨⟨fun h => absurd h (by decide), fun h => by linarith⟩,
        ⟨fun _ => ⟨h2, h1⟩, fun _ => rfl⟩,
        ⟨fun h => absurd h (by decide), fun h => by linarith⟩⟩
    · push_neg at h1 h2
      exact ⟨⟨fun h => absurd h (by decide), fun h => by linarith⟩,
        ⟨fun h => absurd h (by decide), fun h => by linarith [h.1]⟩,
        ⟨fun _ => h2, fun _ => rfl⟩⟩
  · refine ⟨?_, ?_, ?_, ?_⟩ <;> norm_num [get_priority_label]

/-! ### Claim C7: impact score -/

/-- The branch structure of `calculate_impact_score` as a function of the raw
impact value alone. -/
def impact_of_raw (raw : ℚ) : ℤ :=
  if raw ≥ 2 then 100
  else if raw ≥ 3/2 then 90
  else if raw ≥ 1 then 75
  else if raw ≥ 1/2 then 50
  else if raw < 1/5 then 10
  else pyInt (raw * 50)

lemma calculate_impact_score_eq (c w : ℤ) :
    calculate_impact_score c w = impact_of_raw (raw_impact c w) := rfl

lemma pyInt_band {x : ℚ} (h1 : 1/5 ≤ x) (h2 : x < 1/2) :
    10 ≤ pyInt (x * 50) ∧ pyInt (x * 50) < 25 := by
  have hx0 : (0:ℚ) ≤ x * 50 := by linarith
  rw [pyInt, if_pos hx0]
  constructor
  · exact Int.le_floor.mpr (by push_cast; linarith)
  · exact Int.floor_lt.mpr (by push_cast; linarith)

lemma impact_of_raw_mono {x y : ℚ} (hx : 0 ≤ x) (hxy : x ≤ y) :
    impact_of_raw x ≤ impact_of_raw y := by
  unfold impact_of_raw
  split_ifs <;> try first | rfl | norm_num | linarith
  all_goals try
    (rcases @pyInt_band x (by linarith) (by linarith) with ⟨h10, h25⟩; linarith)
  all_goals try
    (rcases @pyInt_band y (by linarith) (by linarith) with ⟨h10, h25⟩; linarith)
  all_goals
    rw [pyInt, if_pos (by linarith : (0:ℚ) ≤ x*50), pyInt,
      if_pos (by linarith : (0:ℚ) ≤ y*50)]
  all_goals exact Int.floor_le_floor (by linarith)

lemma raw_impact_nonneg {c w : ℤ} (hc : 1 ≤ c) (hw : 0 ≤ w) :
    0 ≤ raw_impact c w := by
  unfold raw_impact
  have : (0:ℚ) ≤ (c:ℚ) := by exact_mod_cast (by omega : (0:ℤ) ≤ c)
  have : (0:ℚ) ≤ (w:ℚ) := by exact_mod_cast hw
  positivity

/-- C7: for credits in [1,4] and weight in [0,100], the impact score follows
the piecewise definition on `raw = credits × weight/100` (100 for raw≥2,
90 for 1.5≤raw<2, 75 for 1≤raw<1.5, 50 for 0.5≤raw<1, 10 for raw<0.2,
`int(raw×50)` for 0.2≤raw<0.5), lies in {10,50,75,90,100} ∪ [0,25), and is
monotonically non-decreasing in raw. -/
theorem C7_impact_score (c w c2 w2 : ℤ)
    (hc1 : 1 ≤ c) (hc4 : c ≤ 4) (hw0 : 0 ≤ w) (hw100 : w ≤ 100)
    (hd1 : 1 ≤ c2) (hd4 : c2 ≤ 4) (hv0 : 0 ≤ w2) (hv100 : w2 ≤ 100) :
    (raw_impact c w ≥ 2 → calculate_impact_score c w = 100) ∧
    (3/2 ≤ raw_impact c w → raw_impact c w < 2 → calculate_impact_score c w = 90) ∧
    (1 ≤ raw_impact c w → raw_impact c w < 3/2 → calculate_impact_score c w = 75) ∧
    (1/2 ≤ raw_impact c w → raw_impact c w < 1 → calculate_impact_score c w = 50) ∧
    (raw_impact c w < 1/5 → calculate_impact_score c w = 10) ∧
    (1/5 ≤ raw_impact c w → raw_impact c w < 1/2 →
      calculate_impact_score c w = pyInt (raw_impact c w * 50)) ∧
    (calculate_impact_score c w ∈ ({10, 50, 75, 90, 100} : Set ℤ) ∨
      (0 ≤ calculate_impact_score c w ∧ calculate_impact_score c w < 25)) ∧
    (raw_impact c w ≤ raw_impact c2 w2 →
      calculate_impact_score c w ≤ calculate_impact_score c2 w2) := by
  rw [calculate_impact_score_eq, calculate_impact_score_eq]
  refine ⟨?_, ?_, ?_, ?_, ?_, ?_, ?_, ?_⟩
  · intro h; rw [impact_of_raw, if_pos h]
  · intro h1 h2; unfold impact_of_raw; split_ifs <;> first | rfl | linarith
  · intro h1 h2; unfold impact_of_raw; split_ifs <;> first | rfl | linarith
  · intro h1 h2; unfold impact_of_raw; split_ifs <;> first | rfl | linarith
  · intro h; unfold impact_of_raw; split_ifs <;> first | rfl | linarith
  · intro h1 h2; unfold impact_of_raw; split_ifs <;> first | rfl | linarith
  · unfold impact_of_raw
    split_ifs with g1 g2 g3 g4 g5
    · left; simp
    · left; simp
    · left; simp
    · left; simp
    · left; simp
    · right
      rcases @pyInt_band (raw_impact c w) (by linarith) (by linarith) with ⟨h10, h25⟩
      omega
  · exact fun h => impact_of_raw_mono (raw_impact_nonneg hc1 hw0) h

/-- Witness for C7 at concrete inputs: credits=2, weight=25 gives raw=0.5 and
score 50; credits=1, weight=30 gives raw=0.3 in the interpolation band;
monotonicity across raw 0.5 ≤ 4. -/
theorem C7_impact_score_witness :
    calculate_impact_score 2 25 = 50 ∧
    calculate_impact_score 1 30 = pyInt (raw_impact 1 30 * 50) ∧
    calculate_impact_score 2 25 ≤ calculate_impact_score 4 100 := by
  have h := C7_impact_score 2 25 4 100 (by decide) (by decide) (by decide)
    (by decide) (by decide) (by decide) (by decide) (by decide)
  have h2 := C7_impact_score 1 30 4 100 (by decide) (by decide) (by decide)
    (by decide) (by decide) (by decide) (by decide) (by decide)
  refine ⟨h.2.2.2.1 ?_ ?_, h2.2.2.2.2.2.1 ?_ ?_, h.2.2.2.2.2.2.2 ?_⟩ <;>
    norm_num [raw_impact]

/-! ## `src/src/dynamic_task_prioritization/difficulty_predictor.py` -/

/-- Characters stripped by Python `str.strip()` (ASCII whitespace). -/
def pyIsSpace (c : Char) : Bool :=
  c == ' ' || c == '\t' || c == '\n' || c == '\r' || c == '\x0b' || c == '\x0c'

/-- Source condition `not task_description.strip()`: true exactly when the
string is empty or consists only of whitespace. -/
def strip_is_empty (s : String) : Bool := s.toList.all pyIsSpace

/-- Output of one classifier inference: the predicted class and the 3-entry
probability vector (classes 0=Easy, 1=Medium, 2=Hard). -/
structure ClassifierOutput where
  prediction_class : ℕ
  probabilities : List ℚ

/-- Source mapping `self.class_to_score = {0: 1, 1: 3, 2: 5}` read with
`.get(prediction_class, fallback)`. -/
def class_to_score (c : ℕ) (fallback : ℤ) : ℤ :=
  if c = 0 then 1 else if c = 1 then 3 else if c = 2 then 5 else fallback

/-- Embedding of `DifficultyPredictor.predict_difficulty`. `loaded` is
`self.loaded`; `classify` stands for the SBERT-encode + XGBoost
predict/predict_proba pipeline, with `Except.error` an exception raised
during inference (caught by the source's `except` clause). -/
def predict_difficulty (loaded : Bool)
    (classify : String → Except String ClassifierOutput)
    (task_description : String) (fallback : ℤ := 3) : ℤ :=
  if !loaded || strip_is_empty task_description then fallback
  else
    match classify task_description with
    | .error _ => fallback
    | .ok out => class_to_score out.prediction_class fallback

/-! ### Claim C1: difficulty-resolution step of `main.py` -/

/-- Runtime shape of the Python value `main.py` receives from
`predictor.predict_difficulty`: either a single int (what the v2 predictor
actually returns) or a pair (what the caller's tuple unpacking expects). -/
inductive PyScalarOrPair
  | int (n : ℤ)
  | pair (n : ℤ) (confidence : ℚ)

/-- The value the call at `main.py` line 323 receives:
`predict_difficulty` returns a single int. -/
def predict_difficulty_value (loaded : Bool)
    (classify : String → Except String ClassifierOutput)
    (task_description : String) : PyScalarOrPair :=
  PyScalarOrPair.int (predict_difficulty loaded classify task_description)

/-- Python tuple unpacking `a, b = v`: succeeds only on a pair and raises
`TypeError` on an int. -/
def unpack_pair : PyScalarOrPair → Except String (ℤ × ℚ)
  | .int _ => .error "TypeError: cannot unpack non-iterable int object"
  | .pair a b => .ok (a, b)

/-- Embedding of `main.py` lines 318-336 (STEP 2): the statement
`ml_difficulty, ml_confidence = predictor.predict_difficulty(task_description)`
followed by the hybrid decision on `ml_confidence < 50`. `fmt` stands for the
percent formatting of `ml_confidence` with one decimal in the low-confidence
method string. -/
def main_difficulty_resolution (loaded : Bool)
    (classify : String → Except String ClassifierOutput) (fmt : ℚ → String)
    (task_description : String) (ai_suggested_difficulty : ℤ) :
    Except String (ℤ × String) := do
  let (ml_difficulty, ml_confidence) ←
    unpack_pair (predict_difficulty_value loaded classify task_description)
  if ml_confidence < 50 then
    pure (ai_suggested_difficulty,
      "AI Suggested (ML Confidence: " ++ fmt ml_confidence ++ "%)")
  else
    pure (ml_difficulty, "ML Prediction (High Confidence)")

/-- C1: for every model state, classifier, task text and AI-suggested
difficulty, the difficulty-resolution step of `main.py` raises `TypeError`
instead of returning a `(difficulty, method)` pair: line 323 unpacks two
values from `predict_difficulty`, which returns a single int, so the hybrid
confidence gate below it is unreachable. -/
theorem C1_resolution_always_raises (loaded : Bool)
    (classify : String → Except String ClassifierOutput) (fmt : ℚ → String)
    (task_description : String) (ai_suggested_difficulty : ℤ) :
    main_difficulty_resolution loaded classify fmt task_description
      ai_suggested_difficulty =
      Except.error "TypeError: cannot unpack non-iterable int object" := rfl

/-! ### Claim C2: fallback on load failure or inference exception -/

/-- C2: when the model failed to load at startup (`loaded = false`), and when
inference raises an exception, `predict_difficulty` returns the fixed
fallback difficulty 3 (its default); being a total function into `ℤ`, it
never propagates an exception to the caller. -/
theorem C2_fallback_on_failure
    (classify : String → Except String ClassifierOutput)
    (task_description : String) :
    predict_difficulty false classify task_description = 3 ∧
    (∀ e, classify task_description = Except.error e →
      predict_difficulty true classify task_description = 3) := by
  constructor
  · rw [predict_difficulty]; simp
  · intro e he
    rw [predict_difficulty]
    by_cases hb : strip_is_empty task_description = true
    · simp [hb]
    · simp [hb, he]

/-- Witness for C2: a concrete classifier that always raises, on a concrete
non-blank task text, both with the model unloaded and with it loaded. -/
theorem C2_fallback_on_failure_witness :
    predict_difficulty false (fun _ => Except.error "model file not found")
      "Write the final report" = 3 ∧
    predict_difficulty true (fun _ => Except.error "inference failed")
      "Write the final report" = 3 :=
  ⟨(C2_fallback_on_failure (fun _ => Except.error "model file not found")
      "Write the final report").1,
   (C2_fallback_on_failure (fun _ => Except.error "inference failed")
      "Write the final report").2 "inference failed" rfl⟩

/-! ### Claim C10: blank task description -/

/-- C10: for a task description that is empty or whitespace-only,
`predict_difficulty` returns the fallback (3 by default) without invoking the
classifier: even when the model is loaded the result is the fallback, and it
is independent of the classifier function. -/
theorem C10_blank_description (loaded : Bool)
    (classify classify2 : String → Except String ClassifierOutput)
    (task_description : String) (fallback : ℤ)
    (h : strip_is_empty task_description = true) :
    predict_difficulty loaded classify task_description fallback = fallback ∧
    predict_difficulty true classify task_description = 3 ∧
    predict_difficulty loaded classify task_description fallback =
      predict_difficulty loaded classify2 task_description fallback := by
  refine ⟨?_, ?_, ?_⟩ <;> simp [predict_difficulty, h]

/-- Witness for C10: a whitespace-only description with a loaded model and a
classifier that would report class Hard, versus one that would raise; the
classifier output is ignored either way. -/
theorem C10_blank_description_witness :
    predict_difficulty true (fun _ => Except.ok ⟨2, [0, 0, 1]⟩) "  " = 3 ∧
    predict_difficulty true (fun _ => Except.ok ⟨2, [0, 0, 1]⟩) "  " 3 =
      predict_difficulty true (fun _ => Except.error "boom") "  " 3 :=
  ⟨(C10_blank_description true (fun _ => Except.ok ⟨2, [0, 0, 1]⟩)
      (fun _ => Except.error "boom") "  " 3 (by decide)).2.1,
   (C10_blank_description true (fun _ => Except.ok ⟨2, [0, 0, 1]⟩)
      (fun _ => Except.error "boom") "  " 3 (by decide)).2.2⟩

/-! ## `src/src/adaptive_time_estimator/adaptive_time_estimator.py` -/

/-- Sub-document `sub_task` of a task record (shape per `save_task`). -/
structure SubTask where
  description : String
  vector : List ℚ
  category : String
  position : ℕ
deriving DecidableEq

/-- Sub-document `estimates` of a task record (shape per `save_task`);
`actual_time` is null until the task is marked complete. -/
structure Estimates where
  prediction_method : String
  system_estimate : ℤ
  user_estimate : ℤ
  actual_time : Option ℚ
  confidence : String
deriving DecidableEq

/-- One document of the MongoDB `tasks` collection (shape per `save_task`
and `mark_complete`); dates are abstract timestamps. -/
structure TaskRecord where
  user_id : String
  main_task : String
  sub_task : SubTask
  estimates : Estimates
  status : String
  created_date : ℕ
  completed_date : Option ℕ := none
  time_allocation_date : Option ℕ := none
deriving DecidableEq

/-- One element of the result list built by `find_similar_tasks`. -/
structure SimilarTaskMatch where
  task_description : String
  similarity : ℚ
  actual_time : ℚ
  category : String
deriving DecidableEq

/-- State and configuration of `AdaptiveTimeEstimator`: the `tasks`
collection, the `__init__` configuration (`threshold = 0.65`, `top_k = 5`),
and the two injected collaborators: `text_to_vector` (the SBERT embedder)
and `cosine_similarity` (the similarity value computed on the embedded
floats, idealized over `ℚ`). -/
structure AdaptiveTimeEstimator where
  tasks : List TaskRecord
  threshold : ℚ := 0.65
  top_k : ℕ := 5
  text_to_vector : String → List ℚ
  cosine_similarity : List ℚ → List ℚ → ℚ

/-- Embedding of the MongoDB filter in `find_similar_tasks`: user match,
`status = "completed"`, and `estimates.actual_time != None`. -/
def completed_filter (user_id : String) (t : TaskRecord) : Bool :=
  t.user_id == user_id && t.status == "completed" &&
    t.estimates.actual_time != none

/-- Embedding of `AdaptiveTimeEstimator.find_similar_tasks`. The Python
`results.sort(key=lambda x: x['similarity'], reverse=True)` is a stable
descending sort, modelled by a stable merge sort with the order
`a.similarity ≥ b.similarity`. -/
def find_similar_tasks (e : AdaptiveTimeEstimator) (text user_id : String)
    (threshold : Option ℚ := none) : List SimilarTaskMatch :=
  let threshold := threshold.getD e.threshold
  let new_vector := e.text_to_vector text
  let completed := e.tasks.filter (completed_filter user_id)
  if completed.isEmpty then []
  else
    let results := completed.filterMap (fun task =>
      let similarity := e.cosine_similarity new_vector task.sub_task.vector
      if similarity ≥ threshold then
        some { task_description := task.sub_task.description
               similarity := similarity
               actual_time := (task.estimates.actual_time).getD 0
               category := task.sub_task.category }
      else none)
    let sorted := results.mergeSort (fun a b => b.similarity ≤ a.similarity)
    sorted.take e.top_k

lemma mem_find_similar_tasks {e : AdaptiveTimeEstimator}
    {text user_id : String} {threshold : Option ℚ} {m : SimilarTaskMatch}
    (hm : m ∈ find_similar_tasks e text user_id threshold) :
    ∃ t ∈ e.tasks, completed_filter user_id t = true ∧
      threshold.getD e.threshold ≤ m.similarity ∧
      m = ⟨t.sub_task.description,
        e.cosine_similarity (e.text_to_vector text) t.sub_task.vector,
        (t.estimates.actual_time).getD 0, t.sub_task.category⟩ := by
  rw [find_similar_tasks] at hm
  split at hm
  · exact absurd hm (List.not_mem_nil m)
  · have hm2 := List.mem_mergeSort.mp (List.mem_of_mem_take hm)
    rcases List.mem_filterMap.mp hm2 with ⟨t, htmem, heq⟩
    rcases List.mem_filter.mp htmem with ⟨htasks, hfilter⟩
    refine ⟨t, htasks, hfilter, ?_⟩
    by_cases hsim : threshold.getD e.threshold ≤
        e.cosine_similarity (e.text_to_vector text) t.sub_task.vector
    · rw [if_pos hsim] at heq
      cases heq
      exact ⟨hsim, rfl⟩
    · rw [if_neg hsim] at heq
      cases heq

/-- C5: `find_similar_tasks` returns at most `top_k` matches, each with
similarity at least the threshold in force, sorted in descending order of
similarity, and drawn only from the user's records with status "completed"
and non-null `actual_time`; the `__init__` defaults are `threshold = 0.65`
and `top_k = 5`. -/
theorem C5_find_similar_tasks (e : AdaptiveTimeEstimator)
    (text user_id : String) (threshold : Option ℚ) :
    (find_similar_tasks e text user_id threshold).length ≤ e.top_k ∧
    (∀ m ∈ find_similar_tasks e text user_id threshold,
      threshold.getD e.threshold ≤ m.similarity) ∧
    (find_similar_tasks e text user_id threshold).Pairwise
      (fun a b => b.similarity ≤ a.similarity) ∧
    (∀ m ∈ find_similar_tasks e text user_id threshold,
      ∃ t ∈ e.tasks, t.user_id = user_id ∧ t.status = "completed" ∧
        t.estimates.actual_time ≠ none ∧
        m.task_description = t.sub_task.description ∧
        m.similarity =
          e.cosine_similarity (e.text_to_vector text) t.sub_task.vector ∧
        m.actual_time = (t.estimates.actual_time).getD 0 ∧
        m.category = t.sub_task.category) ∧
    ({ tasks := e.tasks, text_to_vector := e.text_to_vector,
       cosine_similarity := e.cosine_similarity } :
        AdaptiveTimeEstimator).threshold = 0.65 ∧
    ({ tasks := e.tasks, text_to_vector := e.text_to_vector,
       cosine_similarity := e.cosine_similarity } :
        AdaptiveTimeEstimator).top_k = 5 := by
  refine ⟨?_, ?_, ?_, ?_, rfl, rfl⟩
  · rw [find_similar_tasks]
    split
    · simp
    · exact le_trans (List.length_take_le _ _) (le_refl _)
  · intro m hm
    exact (mem_find_similar_tasks hm).choose_spec.2.2.1
  · rw [find_similar_tasks]
    split
    · exact List.Pairwise.nil
    · refine List.Pairwise.sublist (List.take_sublist _ _) ?_
      have hs := @List.sorted_mergeSort SimilarTaskMatch
        (fun a b => decide (b.similarity ≤ a.similarity))
        (fun a b c hab hbc => by
          simp only [decide_eq_true_eq] at *
          exact le_trans hbc hab)
        (fun a b => by
          simp only [Bool.or_eq_true, decide_eq_true_eq]
          exact le_total b.similarity a.similarity)
      exact List.Pairwise.imp (fun h => of_decide_eq_true h) (hs _)
  · intro m hm
    rcases mem_find_similar_tasks hm with ⟨t, htasks, hfilter, hsim, hmeq⟩
    have hf := hfilter
    simp only [completed_filter, Bool.and_eq_true, beq_iff_eq, bne_iff_ne,
      ne_eq] at hf
    exact ⟨t, htasks, hf.1.1, hf.1.2, hf.2, by rw [hmeq], by rw [hmeq],
      by rw [hmeq], by rw [hmeq]⟩

/-- A concrete completed record highly similar to the sample query. -/
def sampleRecord1 : TaskRecord :=
  { user_id := "u", main_task := "m"
    sub_task := { description := "Create login page", vector := [1, 0],
                  category := "general", position := 1 }
    estimates := { prediction_method := "cold_start", system_estimate := 20,
                   user_estimate := 20, actual_time := some 10,
                   confidence := "LOW" }
    status := "completed", created_date := 0, completed_date := some 1 }

/-- A concrete completed record orthogonal to the sample query. -/
def sampleRecord2 : TaskRecord :=
  { user_id := "u", main_task := "m"
    sub_task := { description := "Write essay", vector := [0, 1],
                  category := "general", position := 2 }
    estimates := { prediction_method := "cold_start", system_estimate := 20,
                   user_estimate := 20, actual_time := some 20,
                   confidence := "LOW" }
    status := "completed", created_date := 0, completed_date := some 1 }

/-- A concrete estimator over the two sample records with default
configuration; the injected similarity is an exact dot product. -/
def sampleEstimator : AdaptiveTimeEstimator :=
  { tasks := [sampleRecord1, sampleRecord2]
    text_to_vector := fun _ => [1, 0]
    cosine_similarity := fun v w => (List.zipWith (fun a b => a * b) v w).sum }

lemma sample_find_eq :
    find_similar_tasks sampleEstimator "Create login page" "u" none =
      [⟨"Create login page", 1, 10, "general"⟩] := by
  rw [find_similar_tasks]
  simp [sampleEstimator, sampleRecord1, sampleRecord2, completed_filter,
    List.filter_cons, List.filterMap_cons, List.mergeSort_singleton]
  norm_num [List.filterMap_cons, List.mergeSort_singleton]

/-- Witness for C5 on the sample estimator: the bound on the result length
and, for the one concrete match returned, the threshold bound. -/
theorem C5_find_similar_tasks_witness :
    (find_similar_tasks sampleEstimator "Create login page" "u" none).length ≤
      sampleEstimator.top_k ∧
    (none : Option ℚ).getD sampleEstimator.threshold ≤
      (⟨"Create login page", 1, 10, "general"⟩ : SimilarTaskMatch).similarity :=
  ⟨(C5_find_similar_tasks sampleEstimator "Create login page" "u" none).1,
   (C5_find_similar_tasks sampleEstimator "Create login page" "u" none).2.1
     ⟨"Create login page", 1, 10, "general"⟩
     (sample_find_eq ▸ List.mem_singleton.mpr rfl)⟩

/-! ### Claim C3: time prediction -/

/-- Embedding of `AdaptiveTimeEstimator.warm_start_prediction`: similarity
weighted average of the actual times, `None` on an empty list. -/
def warm_start_prediction (similar_tasks : List SimilarTaskMatch) :
    Option ℤ :=
  if similar_tasks.isEmpty then none
  else
    let total_sim := (similar_tasks.map (fun t => t.similarity)).sum
    let weighted_sum :=
      (similar_tasks.map
        (fun t => (t.similarity / total_sim) * t.actual_time)).sum
    some (pyRound weighted_sum)

/-- Embedding of `AdaptiveTimeEstimator.cold_start_prediction` with
`self.difficulty_map = {1: 10, 2: 15, 3: 20, 4: 30, 5: 45}` read with
`.get(difficulty, 20)`. -/
def cold_start_prediction (difficulty : ℤ) : ℤ :=
  if difficulty = 1 then 10
  else if difficulty = 2 then 15
  else if difficulty = 3 then 20
  else if difficulty = 4 then 30
  else if difficulty = 5 then 45
  else 20

/-- Result dictionary of `predict_time`. -/
structure PredictionResult where
  method : String
  predicted_time : ℤ
  confidence : String
  similar_tasks : List SimilarTaskMatch
  explanation : String
deriving DecidableEq

/-- Embedding of `AdaptiveTimeEstimator.predict_time`. -/
def predict_time (e : AdaptiveTimeEstimator) (subtask_text user_id : String)
    (difficulty : ℤ) : PredictionResult :=
  let similar := find_similar_tasks e subtask_text user_id none
  if !similar.isEmpty then
    { method := "warm_start"
      predicted_time := (warm_start_prediction similar).getD 0
      confidence := "HIGH"
      similar_tasks := similar
      explanation :=
        "Based on " ++ toString similar.length ++ " similar tasks" }
  else
    { method := "cold_start"
      predicted_time := cold_start_prediction difficulty
      confidence := "LOW"
      similar_tasks := []
      explanation :=
        "Based on difficulty level " ++ toString difficulty ++ "/5" }

/-- C3: `predict_time` is a total function; with at least one similarity
match it returns the rounded similarity-weighted average of the actual
times with method "warm_start" and confidence "HIGH", and with no match it
returns the static difficulty table value (10/15/20/30/45 for 1..5, 20 for
any other key) with method "cold_start" and confidence "LOW". -/
theorem C3_predict_time (e : AdaptiveTimeEstimator)
    (subtask_text user_id : String) (difficulty : ℤ) :
    (find_similar_tasks e subtask_text user_id none ≠ [] →
      (predict_time e subtask_text user_id difficulty).method =
        "warm_start" ∧
      (predict_time e subtask_text user_id difficulty).confidence = "HIGH" ∧
      (predict_time e subtask_text user_id difficulty).predicted_time =
        pyRound (((find_similar_tasks e subtask_text user_id none).map
          (fun t => (t.similarity /
            (((find_similar_tasks e subtask_text user_id none).map
              (fun t => t.similarity)).sum)) * t.actual_time)).sum)) ∧
    (find_similar_tasks e subtask_text user_id none = [] →
      (predict_time e subtask_text user_id difficulty).method =
        "cold_start" ∧
      (predict_time e subtask_text user_id difficulty).confidence = "LOW" ∧
      (predict_time e subtask_text user_id difficulty).predicted_time =
        cold_start_prediction difficulty) ∧
    cold_start_prediction 1 = 10 ∧ cold_start_prediction 2 = 15 ∧
    cold_start_prediction 3 = 20 ∧ cold_start_prediction 4 = 30 ∧
    cold_start_prediction 5 = 45 ∧
    (∀ d : ℤ, d < 1 ∨ 5 < d → cold_start_prediction d = 20) := by
  refine ⟨?_, ?_, rfl, rfl, rfl, rfl, rfl, ?_⟩
  · intro h
    have hne : (find_similar_tasks e subtask_text user_id none).isEmpty =
        false := by
      rw [List.isEmpty_eq_false_iff_exists_mem]
      exact List.exists_mem_of_ne_nil _ h
    refine ⟨?_, ?_, ?_⟩ <;>
      simp [predict_time, hne, warm_start_prediction]
  · intro h
    refine ⟨?_, ?_, ?_⟩ <;> simp [predict_time, h]
  · intro d hd
    rw [cold_start_prediction]
    split_ifs <;> omega

lemma sample_find_nobody :
    find_similar_tasks sampleEstimator "Create login page" "nobody" none =
      [] := by
  rw [find_similar_tasks]
  simp [sampleEstimator, sampleRecord1, sampleRecord2, completed_filter,
    List.filter_cons]

/-- Witness for C3: on the sample estimator the known user gets a warm-start
prediction, an unknown user gets the cold-start table value, and an
out-of-range difficulty key defaults to 20. -/
theorem C3_predict_time_witness :
    (predict_time sampleEstimator "Create login page" "u" 3).method =
      "warm_start" ∧
    (predict_time sampleEstimator "Create login page" "nobody" 4).method =
      "cold_start" ∧
    (predict_time sampleEstimator "Create login page" "nobody" 4).predicted_time
      = cold_start_prediction 4 ∧
    cold_start_prediction 0 = 20 :=
  ⟨((C3_predict_time sampleEstimator "Create login page" "u" 3).1
      (by rw [sample_find_eq]; exact List.cons_ne_nil _ _)).1,
   ((C3_predict_time sampleEstimator "Create login page" "nobody" 4).2.1
      sample_find_nobody).1,
   ((C3_predict_time sampleEstimator "Create login page" "nobody" 4).2.1
      sample_find_nobody).2.2,
   (C3_predict_time sampleEstimator "Create login page" "nobody" 4).2.2.2.2.2.2.2
      0 (Or.inl (by decide))⟩

/-! ### Claim C4: completion is first-match-only and idempotent-safe -/

/-- Embedding of the `update_one` filter in `mark_complete`: user match,
sub-task description match, and `status = "scheduled"`. -/
def mark_complete_filter (subtask_desc user_id : String)
    (t : TaskRecord) : Bool :=
  t.user_id == user_id && t.sub_task.description == subtask_desc &&
    t.status == "scheduled"

/-- Embedding of the `$set` document applied by `mark_complete`; `now`
stands for `datetime.now()`. -/
def mark_complete_set (actual_time : ℚ) (now : ℕ) (t : TaskRecord) :
    TaskRecord :=
  { t with
      estimates := { t.estimates with actual_time := some actual_time }
      status := "completed"
      completed_date := some now }

/-- Embedding of `AdaptiveTimeEstimator.mark_complete` acting on the `tasks`
collection: MongoDB `update_one` updates the first matching document, if
any. -/
def mark_complete (tasks : List TaskRecord) (subtask_desc user_id : String)
    (actual_time : ℚ) (now : ℕ) : List TaskRecord :=
  match tasks with
  | [] => []
  | t :: rest =>
    if mark_complete_filter subtask_desc user_id t then
      mark_complete_set actual_time now t :: rest
    else t :: mark_complete rest subtask_desc user_id actual_time now

lemma completed_no_match {subtask_desc user_id : String} {t : TaskRecord}
    (h : t.status = "completed") :
    mark_complete_filter subtask_desc user_id t = false := by
  simp [mark_complete_filter, h]

lemma mark_complete_set_no_match (subtask_desc user_id : String)
    (a : ℚ) (now : ℕ) (t : TaskRecord) :
    mark_complete_filter subtask_desc user_id (mark_complete_set a now t) =
      false :=
  completed_no_match rfl

lemma mark_complete_of_no_match {tasks : List TaskRecord}
    {subtask_desc user_id : String} {a : ℚ} {now : ℕ}
    (h : ∀ t ∈ tasks, mark_complete_filter subtask_desc user_id t = false) :
    mark_complete tasks subtask_desc user_id a now = tasks := by
  induction tasks with
  | nil => rfl
  | cons t rest ih =>
    rw [mark_complete, h t (List.mem_cons_self t rest),
      ih (fun s hs => h s (List.mem_cons_of_mem t hs))]
    rfl

/-- C4: a record whose status is already "completed" never matches the
`mark_complete` filter (which requires status "scheduled"), so it is left
unchanged at its position — its `actual_time` keeps its first-set value and
can only transition from null once; consequently, when at most one record
matches, a second `mark_complete` call with the same description and user
after a first one is a silent no-op. -/
theorem C4_mark_complete_idempotent (tasks : List TaskRecord)
    (subtask_desc user_id : String) (a a2 : ℚ) (now now2 : ℕ) :
    (∀ (i : ℕ) (t : TaskRecord), tasks[i]? = some t →
      t.status = "completed" →
      (mark_complete tasks subtask_desc user_id a now)[i]? = some t) ∧
    (tasks.countP (mark_complete_filter subtask_desc user_id) ≤ 1 →
      mark_complete (mark_complete tasks subtask_desc user_id a now)
        subtask_desc user_id a2 now2 =
      mark_complete tasks subtask_desc user_id a now) := by
  constructor
  · intro i t
    induction tasks generalizing i with
    | nil => intro h _; cases h
    | cons s rest ih =>
      intro h hc
      rw [mark_complete]
      by_cases hf : mark_complete_filter subtask_desc user_id s = true
      · rw [if_pos hf]
        cases i with
        | zero =>
          rw [List.getElem?_cons_zero] at h
          cases h
          rw [completed_no_match hc] at hf
          cases hf
        | succ n =>
          rw [List.getElem?_cons_succ] at h ⊢
          exact h
      · rw [if_neg hf]
        cases i with
        | zero =>
          rw [List.getElem?_cons_zero] at h ⊢
          exact h
        | succ n =>
          rw [List.getElem?_cons_succ] at h ⊢
          exact ih n h hc
  · induction tasks with
    | nil => intro _; rfl
    | cons s rest ih =>
      intro hcount
      rw [mark_complete]
      by_cases hf : mark_complete_filter subtask_desc user_id s = true
      · rw [if_pos hf]
        have hrest : rest.countP (mark_complete_filter subtask_desc user_id)
            = 0 := by
          rw [List.countP_cons_of_pos _ _ hf] at hcount
          omega
        rw [mark_complete, mark_complete_set_no_match]
        rw [mark_complete_of_no_match
          (fun t ht => by
            have := (List.countP_eq_zero).mp hrest t ht
            simpa using this)]
        simp
      · rw [if_neg hf]
        have hcount2 : rest.countP (mark_complete_filter subtask_desc user_id)
            ≤ 1 := by
          rw [List.countP_cons_of_neg _ _ (by simpa using hf)] at hcount
          exact hcount
        rw [mark_complete, if_neg hf, ih hcount2]

/-- A concrete scheduled record for exercising `mark_complete`. -/
def sampleScheduled : TaskRecord :=
  { user_id := "u", main_task := "m"
    sub_task := { description := "Create login page", vector := [1, 0],
                  category := "general", position := 1 }
    estimates := { prediction_method := "cold_start", system_estimate := 20,
                   user_estimate := 20, actual_time := none,
                   confidence := "LOW" }
    status := "scheduled", created_date := 0 }

/-- Witness for C4: the already-completed sample record is untouched by a
completion call, and completing the scheduled sample store twice equals
completing it once. -/
theorem C4_mark_complete_idempotent_witness :
    (mark_complete [sampleRecord1] "Create login page" "u" 25 7)[0]? =
      some sampleRecord1 ∧
    mark_complete (mark_complete [sampleScheduled] "Create login page" "u"
        25 7) "Create login page" "u" 40 9 =
      mark_complete [sampleScheduled] "Create login page" "u" 25 7 :=
  ⟨(C4_mark_complete_idempotent [sampleRecord1] "Create login page" "u"
      25 7 25 7).1 0 sampleRecord1 rfl rfl,
   (C4_mark_complete_idempotent [sampleScheduled] "Create login page" "u"
      25 40 7 9).2 (by simp [List.countP_cons, mark_complete_filter,
        sampleScheduled])⟩

/-! ### Claim C6: cosine similarity -/

/-- Source expression `np.dot(v1, v2)`. -/
def np_dot (v1 v2 : List ℝ) : ℝ :=
  (List.zipWith (fun a b => a * b) v1 v2).sum

/-- Source expression `np.linalg.norm(v)`: the Euclidean norm. -/
noncomputable def np_norm (v : List ℝ) : ℝ :=
  Real.sqrt ((v.map (fun x => x * x)).sum)

/-- Embedding of `AdaptiveTimeEstimator.cosine_similarity` over exact reals:
`dot / (norm1 * norm2)`, with 0.0 returned when either norm is zero. -/
noncomputable def cosine_similarity (v1 v2 : List ℝ) : ℝ :=
  if np_norm v1 = 0 ∨ np_norm v2 = 0 then 0
  else np_dot v1 v2 / (np_norm v1 * np_norm v2)

lemma sum_squares_nonneg (v : List ℝ) :
    0 ≤ (v.map (fun x => x * x)).sum := by
  apply List.sum_nonneg
  intro x hx
  rcases List.mem_map.mp hx with ⟨a, _, rfl⟩
  exact mul_self_nonneg a

lemma np_dot_self (v : List ℝ) :
    np_dot v v = (v.map (fun x => x * x)).sum := by
  rw [np_dot, List.zipWith_same]

/-- C6: `cosine_similarity` returns 0.0 whenever either argument has zero
norm — the division is guarded, and the function is total, so it never
raises — and the cosine similarity of a vector of nonzero norm with itself
is exactly 1. -/
theorem C6_cosine_similarity :
    (∀ v1 v2 : List ℝ, np_norm v1 = 0 ∨ np_norm v2 = 0 →
      cosine_similarity v1 v2 = 0) ∧
    (∀ v : List ℝ, np_norm v ≠ 0 → cosine_similarity v v = 1) := by
  constructor
  · intro v1 v2 h
    rw [cosine_similarity, if_pos h]
  · intro v h
    rw [cosine_similarity, if_neg (by tauto)]
    rw [np_dot_self]
    have hsq : np_norm v * np_norm v = (v.map (fun x => x * x)).sum := by
      rw [np_norm]
      exact Real.mul_self_sqrt (sum_squares_nonneg v)
    rw [hsq]
    have hpos : (0:ℝ) < (v.map (fun x => x * x)).sum := by
      rw [np_norm] at h
      exact Real.sqrt_ne_zero'.mp h
    exact div_self (ne_of_gt hpos)

/-- Witness for C6: the zero vector against (3,4), and (3,4) with itself. -/
theorem C6_cosine_similarity_witness :
    cosine_similarity [(0:ℝ), 0] [(3:ℝ), 4] = 0 ∧
    cosine_similarity [(3:ℝ), 4] [(3:ℝ), 4] = 1 :=
  ⟨C6_cosine_similarity.1 [0, 0] [3, 4]
     (Or.inl (by norm_num [np_norm])),
   C6_cosine_similarity.2 [3, 4]
     (by rw [np_norm]; rw [Real.sqrt_ne_zero']; norm_num)⟩
